import Mathlib

/-!
# Verification of the mail client core (backend/app/services/email.py and
  backend/app/routers/contact.py)

This file gives a shallow embedding, in Lean 4, of the mail send/fetch
helpers of the repository and proves / refutes the frozen claims about
them.

Modelling conventions:

* Python `None`-able strings become `Option String`; Python truthiness of
  a string value (`if not value`, `a or b`) is modelled by `optTruthy` and
  `pyOr`.
* Network effects are modelled as explicit event traces: each transport
  operation is a pure function from a configuration, an oracle describing
  the remote side answers, and the call arguments, to a pair
  `(result, trace)`.  A raised exception is an `Except.error`; the trace
  records every protocol operation in the order the code performs it, so
  "performs zero network I/O" is `trace = []`.
* Byte-level charset decoding is a platform primitive
  (`bytes.decode(charset, errors="ignore")`).  A header segment therefore
  carries the outcome of the primary decode attempt (`none` models the
  decode raising, e.g. an unknown codec) together with the always
  successful permissive UTF-8 fallback result; the repository code only
  contributes the control flow around those outcomes, which is what is
  embedded.
-/

/-- Configuration record, from the `EmailConfig` dataclass
(email.py lines 26-41).  Defaults follow the dataclass defaults. -/
structure EmailConfig where
  smtp_host : String
  smtp_port : Nat := 587
  smtp_use_tls : Bool := true
  smtp_user : Option String := none
  smtp_password : Option String := none
  default_from : Option String := none
  imap_host : Option String := none
  imap_port : Nat := 993
  imap_ssl : Bool := true
  pop3_host : Option String := none
  pop3_port : Nat := 995
  pop3_ssl : Bool := true
deriving DecidableEq

/-- Python truthiness of an optional string: `None` and the empty string
are falsy, every other string is truthy. -/
def optTruthy : Option String → Bool
  | none => false
  | some s => !s.isEmpty

/-- Python `a or b` on optional strings: yields `a` when `a` is truthy,
otherwise `b` (as is, even when `b` is falsy). -/
def pyOr (a b : Option String) : Option String :=
  if optTruthy a then a else b

/-- Truthiness of an optional list (Python `if cc:`): `None` and the
empty list are falsy. -/
def listTruthy (l : Option (List String)) : Bool :=
  match l with
  | none => false
  | some xs => !xs.isEmpty

/-- Python string whitespace (the characters `str.strip` removes). -/
def isSpaceChar (c : Char) : Bool :=
  c = ' ' || c = '\t' || c = '\n' || c = '\r' || c = '\x0b' || c = '\x0c'

/-- Python `s.strip()`: leading and trailing whitespace removed. -/
def pyStrip (s : String) : String :=
  String.mk (((s.data.dropWhile isSpaceChar).reverse.dropWhile isSpaceChar).reverse)

/-- Python `sep.join(l)`. -/
def pyJoin (sep : String) : List String → String
  | [] => ""
  | [x] => x
  | x :: xs => x ++ sep ++ pyJoin sep xs

/-- Python `s.startswith(p)`. -/
def pyStartsWith (s p : String) : Bool :=
  p.data.isPrefixOf s.data

/-- Python `int(s)` on a decimal token: `none` models `int` raising
`ValueError`. -/
def pyIntParse (s : String) : Option Nat :=
  if s.data.isEmpty then none
  else if s.data.all (fun c => c.isDigit) then
    some (s.data.foldl (fun a c => a * 10 + (c.toNat - 48)) 0)
  else none

/-- Whether both SMTP credentials are configured (Python
`self.config.smtp_user and self.config.smtp_password`, truthiness of
both strings). -/
def smtpCreds (cfg : EmailConfig) : Bool :=
  optTruthy cfg.smtp_user && optTruthy cfg.smtp_password

/-- One segment of a header value as returned by the platform
`decode_header` primitive (email.py line 66): either an already decoded
string part, or a bytes part tagged with a declared charset.  For a bytes
part, `primaryDecode` is the outcome of
`part.decode(encoding or "utf-8", errors="ignore")` (`none` when that
decode raises, e.g. an unknown codec name) and `utf8Decode` is the
always-successful `part.decode("utf-8", errors="ignore")` fallback. -/
inductive HdrSeg where
  | text (s : String)
  | word (encoding : Option String) (primaryDecode : Option String) (utf8Decode : String)
deriving DecidableEq

/-- Decoding of one segment: the body of the `for part, encoding in parts`
loop of `_decode_header_value` (email.py lines 68-75).  A string part is
kept as is; a bytes part uses the primary decode, falling back to
permissive UTF-8 when the primary decode raises. -/
def decodeSeg : HdrSeg → String
  | .text s => s
  | .word _ primaryDecode utf8Decode =>
    match primaryDecode with
    | some s => s
    | none => utf8Decode

/-- `_decode_header_value` (email.py lines 61-76).  The input is the
header value as seen by `decode_header`: absent input (`None` or a falsy
value) yields the empty string; otherwise the decoded pieces of all
segments are concatenated.  A plain string with no encoded words is
represented as the single segment `[HdrSeg.text s]`, matching
`decode_header` returning `[(s, None)]` on such input. -/
def decode_header_value : Option (List HdrSeg) → String
  | none => ""
  | some segs => String.join (segs.map decodeSeg)

/-- One MIME part as visited by `msg.walk()` (email.py line 84):
its content type, its optional `Content-Disposition` header, and the
decoded text of its payload (`none` models `get_payload(decode=True)`
returning `None` — in particular multipart container nodes — or
raising). -/
structure MimePart where
  ctype : String
  disp : Option String
  payload : Option String
deriving DecidableEq

/-- A parsed message body: multipart flag, the walked parts (in walk
order) and, for the non-multipart case, the decoded sole payload. -/
structure MimeMsg where
  multipart : Bool
  parts : List MimePart
  payload : Option String
deriving DecidableEq

/-- The attachment test of `_get_message_text` (email.py line 87):
`disp is not None and disp.strip().startswith("attachment")`. -/
def isAttachmentPart (p : MimePart) : Bool :=
  match p.disp with
  | none => false
  | some d => pyStartsWith (pyStrip d) "attachment"

/-- The part loop of `_get_message_text` (email.py lines 84-103), as a
tail recursion over the remaining parts with the accumulated plain texts
and the current html candidate: attachment parts are skipped, parts
without a decodable payload are skipped, `text/plain` payloads are
appended, a `text/html` payload overwrites the html candidate. -/
def walkParts (acc : List String × Option String) : List MimePart → List String × Option String
  | [] => acc
  | p :: ps =>
    if isAttachmentPart p then walkParts acc ps
    else
      match p.payload with
      | none => walkParts acc ps
      | some text =>
        if p.ctype = "text/plain" then walkParts (acc.fst ++ [text], acc.snd) ps
        else if p.ctype = "text/html" then walkParts (acc.fst, some text) ps
        else walkParts acc ps

/-- `_get_message_text` (email.py lines 79-112): returns
`(plain_text, html)`.  For the non-multipart case the sole payload is
appended when truthy (the truthiness of the raw bytes is modelled on the
decoded text). -/
def get_message_text (m : MimeMsg) : String × Option String :=
  if m.multipart then
    let r := walkParts ([], none) m.parts
    (pyStrip (pyJoin "\n" r.fst), r.snd)
  else
    let plain : List String :=
      match m.payload with
      | some t => if t.isEmpty then [] else [t]
      | none => []
    (pyStrip (pyJoin "\n" plain), none)

/-! ## SMTP send (email.py lines 126-188) -/

/-- Error kinds raised by the mail client.  `configurationError` models
the `ValueError("... not configured")` guards (the configuration-error
signal of the spec); `transportError` models network, TLS, login and
protocol-command failures raised by the standard-library clients;
`pyError` models other propagated Python exceptions such as `int()`
raising `ValueError` on a malformed listing entry. -/
inductive MailErr where
  | configurationError (msg : String)
  | transportError (msg : String)
  | pyError (msg : String)
deriving DecidableEq

/-- Remote-side/environment oracle for one SMTP session: whether each
protocol step, were it attempted, would succeed. -/
structure SmtpOracle where
  ehlo1Ok : Bool
  starttlsOk : Bool
  ehlo2Ok : Bool
  loginOk : Bool
  sendOk : Bool
  quitOk : Bool
deriving DecidableEq

/-- Protocol events of an SMTP session, in the order the code performs
them.  `sendMsg` carries the visible headers of the constructed message,
the envelope from address and the envelope recipient list, i.e. what the
code hands to `server.send_message(msg, from_addr=..., to_addrs=...)`. -/
inductive SmtpEv where
  | connectPlain (host : String) (port : Nat)
  | connectSsl (host : String) (port : Nat)
  | ehlo
  | starttls
  | login (user pw : String)
  | sendMsg (headers : List (String × Option String)) (fromAddr : Option String)
      (recipients : List String)
  | quit
  | close
deriving DecidableEq

/-- From-address resolution of `send_email` (email.py lines 140-141):
only an absent (`None`) explicit argument falls back to
`default_from or smtp_user`; the code performs no further check on the
result. -/
def resolve_from (cfg : EmailConfig) (from_address : Option String) : Option String :=
  match from_address with
  | some s => some s
  | none => pyOr cfg.default_from cfg.smtp_user

/-- The visible headers set on the constructed `EmailMessage`
(email.py lines 142-147): Subject, From, To, and Cc only when `cc` is
truthy.  Values are the raw assigned Python values (`From` may be
`None`).  The body calls (`set_content`, `add_alternative`, lines
151-155) add only MIME structure headers and are independent of the
recipients, so they are not modelled.  No Bcc header is ever set. -/
def build_msg_headers (subject : String) (fromA : Option String)
    (to_addresses : List String) (cc : Option (List String)) :
    List (String × Option String) :=
  [("Subject", some subject), ("From", fromA),
   ("To", some (pyJoin ", " to_addresses))]
  ++ (if listTruthy cc then
        [("Cc", some (pyJoin ", " (cc.getD [])))] else [])

/-- `all_recipients = list(to_addresses) + (cc or []) + (bcc or [])`
(email.py line 149). -/
def all_recipients (to_addresses : List String) (cc bcc : Option (List String)) :
    List String :=
  to_addresses ++ cc.getD [] ++ bcc.getD []

/-- The cleanup of both send branches (email.py lines 168-172 and
180-184): `quit` is always attempted; when it raises, the exception is
swallowed and the forced `close` runs.  `close` is socket teardown and is
modelled as non-raising. -/
def smtpCleanup (quitOk : Bool) : List SmtpEv :=
  if quitOk then [SmtpEv.quit] else [SmtpEv.quit, SmtpEv.close]

/-- The STARTTLS branch protocol body (email.py lines 158-167): plain
connect, greeting, STARTTLS, greeting again, login when both credentials
are configured, then submit.  The first failing step raises; the trace
records every step up to and including the failing one. -/
def smtpTlsRun (cfg : EmailConfig) (o : SmtpOracle)
    (hdrs : List (String × Option String)) (fromA : Option String)
    (recips : List String) : Except MailErr Unit × List SmtpEv :=
  let c := SmtpEv.connectPlain cfg.smtp_host cfg.smtp_port
  let lg := SmtpEv.login (cfg.smtp_user.getD "") (cfg.smtp_password.getD "")
  let sd := SmtpEv.sendMsg hdrs fromA recips
  if !o.ehlo1Ok then (.error (.transportError "ehlo"), [c, .ehlo])
  else if !o.starttlsOk then (.error (.transportError "starttls"), [c, .ehlo, .starttls])
  else if !o.ehlo2Ok then (.error (.transportError "ehlo"), [c, .ehlo, .starttls, .ehlo])
  else if smtpCreds cfg && !o.loginOk then
    (.error (.transportError "login"), [c, .ehlo, .starttls, .ehlo, lg])
  else if !o.sendOk then
    (.error (.transportError "send"),
      [c, .ehlo, .starttls, .ehlo] ++ (if smtpCreds cfg then [lg] else []) ++ [sd])
  else
    (.ok (), [c, .ehlo, .starttls, .ehlo] ++ (if smtpCreds cfg then [lg] else []) ++ [sd])

/-- The implicit-TLS branch protocol body (email.py lines 175-179): SSL
connect, login when both credentials are configured, then submit. -/
def smtpSslRun (cfg : EmailConfig) (o : SmtpOracle)
    (hdrs : List (String × Option String)) (fromA : Option String)
    (recips : List String) : Except MailErr Unit × List SmtpEv :=
  let c := SmtpEv.connectSsl cfg.smtp_host cfg.smtp_port
  let lg := SmtpEv.login (cfg.smtp_user.getD "") (cfg.smtp_password.getD "")
  let sd := SmtpEv.sendMsg hdrs fromA recips
  if smtpCreds cfg && !o.loginOk then
    (.error (.transportError "login"), [c, lg])
  else if !o.sendOk then
    (.error (.transportError "send"), [c] ++ (if smtpCreds cfg then [lg] else []) ++ [sd])
  else
    (.ok (), [c] ++ (if smtpCreds cfg then [lg] else []) ++ [sd])

/-- `EmailService.send_email` (email.py lines 126-184): resolves the from
address, builds the message, selects the branch on `smtp_use_tls`, and
always appends the cleanup to the trace.  The result is that of the
protocol body; a cleanup failure never changes it. -/
def send_email (cfg : EmailConfig) (o : SmtpOracle) (to_addresses : List String)
    (subject body : String) (html : Option String) (cc bcc : Option (List String))
    (from_address : Option String) : Except MailErr Unit × List SmtpEv :=
  let fromA := resolve_from cfg from_address
  let hdrs := build_msg_headers subject fromA to_addresses cc
  let recips := all_recipients to_addresses cc bcc
  let core :=
    if cfg.smtp_use_tls then smtpTlsRun cfg o hdrs fromA recips
    else smtpSslRun cfg o hdrs fromA recips
  (core.fst, core.snd ++ smtpCleanup o.quitOk)

/-- The canonical full STARTTLS protocol sequence, used to state the
ordering property: every actual trace is a prefix of this sequence
followed by the cleanup. -/
def tlsChain (cfg : EmailConfig) (hdrs : List (String × Option String))
    (fromA : Option String) (recips : List String) : List SmtpEv :=
  [SmtpEv.connectPlain cfg.smtp_host cfg.smtp_port, .ehlo, .starttls, .ehlo]
  ++ (if smtpCreds cfg then
        [SmtpEv.login (cfg.smtp_user.getD "") (cfg.smtp_password.getD "")] else [])
  ++ [SmtpEv.sendMsg hdrs fromA recips]

/-- The submit events of a trace, with their payload. -/
def sentPayloads (tr : List SmtpEv) :
    List (List (String × Option String) × Option String × List String) :=
  tr.filterMap (fun e =>
    match e with
    | .sendMsg h f r => some (h, f, r)
    | _ => none)

/-! ## Fetch paths (email.py lines 190-313) -/

/-- The raw material of one fetched message, as the protocol client hands
it to the parsing pipeline: the header values (inputs of
`_decode_header_value`), the `Date` header, the body structure (input of
`_get_message_text`) and the raw bytes (modelled opaquely). -/
structure MailMsg where
  subjectH : Option (List HdrSeg)
  fromH : Option (List HdrSeg)
  toH : Option (List HdrSeg)
  date : Option String
  body : MimeMsg
  raw : String
deriving DecidableEq

/-- The uniform fetched-message record (the dict built at email.py lines
231-239 and 294-302): keys subject, from, to, date, plain, html, raw. -/
structure InboundMessage where
  subject : String
  fromAddr : String
  toAddr : String
  date : Option String
  plain : String
  html : Option String
  raw : String
deriving DecidableEq

/-- The per-message parsing pipeline shared by both fetch paths
(email.py lines 225-239 / 288-302): decode the headers, extract the
body texts, keep the raw bytes. -/
def parseMail (m : MailMsg) : InboundMessage :=
  { subject := decode_header_value m.subjectH
    fromAddr := decode_header_value m.fromH
    toAddr := decode_header_value m.toH
    date := m.date
    plain := (get_message_text m.body).fst
    html := (get_message_text m.body).snd
    raw := m.raw }

/-- Python slice `l[:k]` for an integer bound `k`: a non-negative bound
takes the first `k` elements; a negative bound stops `|k|` elements
before the end. -/
def pyTake (l : List α) (k : Int) : List α :=
  if 0 ≤ k then l.take k.toNat else l.take (l.length - (-k).toNat)

/-- IMAP protocol events in code order. -/
inductive ImapEv where
  | connectSsl (host : String) (port : Nat)
  | connectPlain (host : String) (port : Nat)
  | login (user pw : String)
  | selectFolder (folder : String)
  | search
  | fetch (idx : Nat)
  | store (idx : Nat)
  | close
  | logout
deriving DecidableEq

/-- Remote-side oracle for one IMAP session: whether login would succeed,
the search answer (status and the ids of `data[0].split()`, in the order
the server returns them), the per-id fetch status and message, and
whether the per-id seen-flag store would succeed (its outcome is
swallowed by the code and never consulted, see email.py lines 242-245). -/
structure ImapOracle where
  loginOk : Bool
  searchStatus : String
  searchIds : List Nat
  fetchTyp : Nat → String
  fetchMsg : Nat → MailMsg
  storeOk : Nat → Bool

/-- The scoped cleanup of `fetch_unseen_imap` (email.py lines 248-256):
`close` then `logout`, each attempted with failures swallowed. -/
def imapCleanup : List ImapEv := [ImapEv.close, ImapEv.logout]

/-- The message loop of `fetch_unseen_imap` (email.py lines 220-245):
for each id, fetch; a non-OK fetch is skipped; otherwise the message is
parsed and appended, and when `mark_seen` is false a best-effort store
removes the seen flag (its failure is swallowed). -/
def imapLoop (o : ImapOracle) (mark_seen : Bool) :
    List Nat → List InboundMessage × List ImapEv
  | [] => ([], [])
  | idx :: rest =>
    if o.fetchTyp idx ≠ "OK" then
      let r := imapLoop o mark_seen rest
      (r.fst, ImapEv.fetch idx :: r.snd)
    else
      let m := parseMail (o.fetchMsg idx)
      let storeEvs := if mark_seen then [] else [ImapEv.store idx]
      let r := imapLoop o mark_seen rest
      (m :: r.fst, ImapEv.fetch idx :: (storeEvs ++ r.snd))

/-- `EmailService.fetch_unseen_imap` (email.py lines 190-256).  The guard
on `imap_host` raises the configuration error before any network event.
After connecting, the login branch at line 204 applies whenever both
credentials are truthy (the host is truthy past the guard, so the
best-effort `elif` at lines 207-212 is unreachable and contributes
nothing); a primary login failure propagates after the scoped cleanup.
A non-OK search yields the empty result.  The ids are reversed
(`data[0].split()[::-1]`) and sliced by `ids[:limit]`. -/
def fetch_unseen_imap (cfg : EmailConfig) (o : ImapOracle) (folder : String)
    (limit : Int) (mark_seen : Bool) :
    Except MailErr (List InboundMessage) × List ImapEv :=
  if !optTruthy cfg.imap_host then
    (.error (.configurationError "IMAP host not configured"), [])
  else
    let host := cfg.imap_host.getD ""
    let conn := if cfg.imap_ssl then ImapEv.connectSsl host cfg.imap_port
                else ImapEv.connectPlain host cfg.imap_port
    let lg := ImapEv.login (cfg.smtp_user.getD "") (cfg.smtp_password.getD "")
    if smtpCreds cfg && !o.loginOk then
      (.error (.transportError "IMAP login failed"), [conn, lg] ++ imapCleanup)
    else
      let pre := [conn] ++ (if smtpCreds cfg then [lg] else [])
                  ++ [ImapEv.selectFolder folder, ImapEv.search]
      if o.searchStatus ≠ "OK" then (.ok [], pre ++ imapCleanup)
      else
        let ids := o.searchIds.reverse
        let r := imapLoop o mark_seen (pyTake ids limit)
        (.ok r.fst, pre ++ r.snd ++ imapCleanup)

/-- POP3 protocol events in code order. -/
inductive PopEv where
  | connectSsl (host : String) (port : Nat)
  | connectPlain (host : String) (port : Nat)
  | userCmd (u : String)
  | passCmd (p : String)
  | listCmd
  | retr (i : Nat)
  | quit
  | close
deriving DecidableEq

/-- Remote-side oracle for one POP3 session: the listing entries
(strings like "1 100"), the per-number retrieval result (`none` models
`retr` raising) and whether `quit` would succeed. -/
structure PopOracle where
  listItems : List String
  retrMsg : Nat → Option MailMsg
  quitOk : Bool

/-- First whitespace-separated token of a listing entry
(Python `x.split()[0]`, modelled on space separators). -/
def firstToken (s : String) : String :=
  String.mk ((s.data.dropWhile isSpaceChar).takeWhile (fun c => !isSpaceChar c))

/-- `[int(x.split()[0]) for x in items]` (email.py line 281): `none` when
some entry does not parse as a number, in which case `int` raises. -/
def parseListingIds (items : List String) : Option (List Nat) :=
  items.mapM (fun s => pyIntParse (firstToken s))

/-- Descending insertion. -/
def insertDesc (x : Nat) : List Nat → List Nat
  | [] => [x]
  | y :: ys => if y < x then x :: y :: ys else y :: insertDesc x ys

/-- `ids.sort(reverse=True)` (email.py line 282). -/
def sortDesc : List Nat → List Nat
  | [] => []
  | x :: xs => insertDesc x (sortDesc xs)

/-- The scoped cleanup of `fetch_pop3` (email.py lines 306-313): `quit`
attempted; when it raises, the forced `close` runs with its own failure
swallowed. -/
def popCleanup (quitOk : Bool) : List PopEv :=
  if quitOk then [PopEv.quit] else [PopEv.quit, PopEv.close]

/-- The retrieval loop of `fetch_pop3` (email.py lines 284-304): each
number is retrieved inside its own try; a raising retrieval only skips
that message. -/
def popLoop (o : PopOracle) : List Nat → List InboundMessage × List PopEv
  | [] => ([], [])
  | i :: rest =>
    let r := popLoop o rest
    match o.retrMsg i with
    | none => (r.fst, PopEv.retr i :: r.snd)
    | some m => (parseMail m :: r.fst, PopEv.retr i :: r.snd)

/-- `EmailService.fetch_pop3` (email.py lines 258-313).  The guard on
`pop3_host` raises the configuration error before any network event.
The best-effort authentication (lines 272-277) swallows failures, so it
contributes only events; the listing numbers are parsed, sorted
descending, sliced by `ids[:limit]` and retrieved one by one. -/
def fetch_pop3 (cfg : EmailConfig) (o : PopOracle) (limit : Int) :
    Except MailErr (List InboundMessage) × List PopEv :=
  if !optTruthy cfg.pop3_host then
    (.error (.configurationError "POP3 host not configured"), [])
  else
    let host := cfg.pop3_host.getD ""
    let conn := if cfg.pop3_ssl then PopEv.connectSsl host cfg.pop3_port
                else PopEv.connectPlain host cfg.pop3_port
    let authEvs := if smtpCreds cfg then
        [PopEv.userCmd (cfg.smtp_user.getD ""), PopEv.passCmd (cfg.smtp_password.getD "")]
      else []
    let pre := [conn] ++ authEvs ++ [PopEv.listCmd]
    match parseListingIds o.listItems with
    | none => (.error (.pyError "int: ValueError"), pre ++ popCleanup o.quitOk)
    | some ids0 =>
      let r := popLoop o (pyTake (sortDesc ids0) limit)
      (.ok r.fst, pre ++ r.snd ++ popCleanup o.quitOk)

/-! ## Contact endpoint (contact.py lines 7-47) -/

/-- Outcome of the HTTP handler: success payload or an `HTTPException`
with a status code. -/
inductive ContactResult where
  | ok
  | httpError (code : Nat) (detail : String)
deriving DecidableEq

/-- The keyword parameters accepted by `EmailService.send_email`
(email.py lines 126-135). -/
def send_email_keywords : List String :=
  ["to_addresses", "subject", "body", "html", "cc", "bcc", "from_address"]

/-- The keyword arguments passed at the `svc.send_email(...)` call site of
`submit_contact` (contact.py lines 37-43). -/
def contact_call_keywords : List String :=
  ["to_addresses", "subject", "body", "from_address", "reply_to"]

/-- The body built by `submit_contact` (contact.py lines 26-34). -/
def contactBody (name email phone message : String) : String :=
  pyJoin "\n"
    ["Name: " ++ name, "Email: " ++ email, "Phone: " ++ phone, "",
     "Message:", message]

/-- `submit_contact` (contact.py lines 7-47).  The recipient is resolved
as `os.getenv("CONTACT_RECIPIENT") or cfg.default_from or cfg.smtp_user`;
when it is falsy the handler raises HTTP 500.  Otherwise the handler
invokes `svc.send_email` with the keyword set of the call site; per
Python call semantics, a keyword argument the callee does not accept
raises `TypeError` at the call, inside the `try`, so it is caught by the
`except Exception` arm and surfaced as HTTP 502 — exactly like a send
failure. -/
def submit_contact (contactRecipientEnv : Option String) (cfg : EmailConfig)
    (o : SmtpOracle) (name email : String) (phone : Option String)
    (subject message : String) : ContactResult :=
  let recipient := pyOr (pyOr contactRecipientEnv cfg.default_from) cfg.smtp_user
  if !optTruthy recipient then
    .httpError 500 "Contact recipient not configured"
  else
    let r := recipient.getD ""
    if contact_call_keywords.any (fun k => !send_email_keywords.contains k) then
      .httpError 502
        "Failed to send contact email: TypeError: unexpected keyword argument reply_to"
    else
      match (send_email cfg o [r] ("Website contact: " ++ subject)
          (contactBody name email (phone.getD "") message) none none none
          (pyOr cfg.default_from recipient)).fst with
      | .ok _ => .ok
      | .error _ => .httpError 502 "Failed to send contact email"

/-! ## Description-side helpers used to state the claims -/

/-- The non-attachment parts of a walked part list. -/
def keptParts (ps : List MimePart) : List MimePart :=
  ps.filter (fun p => !isAttachmentPart p)

/-- The decoded texts of the non-attachment `text/plain` parts with a
decodable payload, in walk order. -/
def plainTexts : List MimePart → List String
  | [] => []
  | p :: ps =>
    if isAttachmentPart p then plainTexts ps
    else
      match p.payload with
      | none => plainTexts ps
      | some t =>
        if p.ctype = "text/plain" then t :: plainTexts ps else plainTexts ps

/-- The decoded texts of the non-attachment `text/html` parts with a
decodable payload, in walk order. -/
def htmlTexts : List MimePart → List String
  | [] => []
  | p :: ps =>
    if isAttachmentPart p then htmlTexts ps
    else
      match p.payload with
      | none => htmlTexts ps
      | some t =>
        if p.ctype = "text/plain" then htmlTexts ps
        else if p.ctype = "text/html" then t :: htmlTexts ps else htmlTexts ps

/-- Last-one-wins combination: the last element of `l` when there is one,
else the previous candidate `hl`. -/
def lastWins (hl : Option String) (l : List String) : Option String :=
  match l.getLast? with
  | some h => some h
  | none => hl

/-- The ids fetched over the wire, in trace order. -/
def fetchedIds (tr : List ImapEv) : List Nat :=
  tr.filterMap (fun e => match e with | ImapEv.fetch i => some i | _ => none)

/-- The ids whose seen flag the session attempted to clear, in trace
order. -/
def storedIds (tr : List ImapEv) : List Nat :=
  tr.filterMap (fun e => match e with | ImapEv.store i => some i | _ => none)

/-- The message numbers retrieved over the wire, in trace order. -/
def retrIds (tr : List PopEv) : List Nat :=
  tr.filterMap (fun e => match e with | PopEv.retr i => some i | _ => none)

/-- How many protocol events of the full STARTTLS chain the session
performs, as decided by the first failing step. -/
def tlsStepCount (cfg : EmailConfig) (o : SmtpOracle) : Nat :=
  if !o.ehlo1Ok then 2
  else if !o.starttlsOk then 3
  else if !o.ehlo2Ok then 4
  else if smtpCreds cfg && !o.loginOk then 5
  else if smtpCreds cfg then 6 else 5

/-! ## Concrete fixtures -/

/-- A configuration with no from-address source at all: no default_from,
no smtp_user. -/
def cfgNoFrom : EmailConfig := { smtp_host := "smtp.example.com" }

/-- An SMTP remote that answers every step successfully. -/
def oracleAllOk : SmtpOracle := ⟨true, true, true, true, true, true⟩

/-- A trivial fetched-message fixture. -/
def mailMsg0 : MailMsg := ⟨none, none, none, none, ⟨false, [], none⟩, ""⟩

/-- A trivial IMAP remote. -/
def imapOracle0 : ImapOracle :=
  ⟨true, "OK", [], fun _ => "OK", fun _ => mailMsg0, fun _ => true⟩

/-- A trivial POP3 remote. -/
def popOracle0 : PopOracle := ⟨[], fun _ => some mailMsg0, true⟩

/-- A configuration with neither an IMAP nor a POP3 host. -/
def cfgNoHosts : EmailConfig := { smtp_host := "" }

/-- A configuration with an IMAP host and no credentials. -/
def cfgImap : EmailConfig :=
  { smtp_host := "smtp.example.com", imap_host := some "imap.example.com" }

/-- An IMAP remote whose unseen search returns the ids 5, 3, 1 in that
order, with every fetch acknowledged OK. -/
def imapOracle531 (fm : Nat → MailMsg) : ImapOracle :=
  ⟨true, "OK", [5, 3, 1], fun _ => "OK", fm, fun _ => true⟩

/-- A configuration with a POP3 host and no credentials. -/
def cfgPop : EmailConfig :=
  { smtp_host := "smtp.example.com", pop3_host := some "pop.example.com" }

/-- The POP3 listing of the claim: message 1 of 100 octets, 3 of 50,
2 of 75. -/
def popListing : List String := ["1 100", "3 50", "2 75"]

/-- A multipart message with one text/plain part and one attachment
part. -/
def mMulti : MimeMsg :=
  ⟨true,
   [⟨"text/plain", none, some "hello"⟩,
    ⟨"application/pdf", some "attachment; filename=a.pdf", some "SECRET"⟩],
   none⟩

/-! ## Shared lemmas -/

lemma lastWins_nil (hl : Option String) : lastWins hl [] = hl := rfl

lemma lastWins_cons (hl : Option String) (t : String) (l : List String) :
    lastWins hl (t :: l) = lastWins (some t) l := by
  cases h : l.getLast? <;>
    simp [lastWins, List.getLast?_cons, List.getLastD_eq_getLast?, h]

lemma lastWins_none (l : List String) : lastWins none l = l.getLast? := by
  cases h : l.getLast? <;> simp [lastWins, h]

lemma walkParts_eq (ps : List MimePart) :
    ∀ (pl : List String) (hl : Option String),
      walkParts (pl, hl) ps = (pl ++ plainTexts ps, lastWins hl (htmlTexts ps)) := by
  induction ps with
  | nil => intro pl hl; simp [walkParts, plainTexts, htmlTexts, lastWins_nil]
  | cons p ps ih =>
    intro pl hl
    by_cases ha : isAttachmentPart p
    · simp [walkParts, plainTexts, htmlTexts, ha, ih]
    · cases hp : p.payload with
      | none => simp [walkParts, plainTexts, htmlTexts, ha, hp, ih]
      | some t =>
        by_cases hplain : p.ctype = "text/plain"
        · simp [walkParts, plainTexts, htmlTexts, ha, hp, hplain, ih]
        · by_cases hhtml : p.ctype = "text/html"
          · simp [walkParts, plainTexts, htmlTexts, ha, hp, hplain, hhtml, ih,
              lastWins_cons]
          · simp [walkParts, plainTexts, htmlTexts, ha, hp, hplain, hhtml, ih]

lemma plainTexts_keptParts (ps : List MimePart) :
    plainTexts (keptParts ps) = plainTexts ps := by
  induction ps with
  | nil => rfl
  | cons p ps ih =>
    by_cases ha : isAttachmentPart p
    · simpa [keptParts, plainTexts, ha, List.filter_cons] using ih
    · cases hp : p.payload <;>
        by_cases hc : p.ctype = "text/plain" <;>
        simp [keptParts, plainTexts, ha, hp, hc, List.filter_cons] at ih ⊢ <;>
        exact ih

lemma htmlTexts_keptParts (ps : List MimePart) :
    htmlTexts (keptParts ps) = htmlTexts ps := by
  induction ps with
  | nil => rfl
  | cons p ps ih =>
    by_cases ha : isAttachmentPart p
    · simpa [keptParts, htmlTexts, ha, List.filter_cons] using ih
    · cases hp : p.payload <;>
        by_cases hc : p.ctype = "text/plain" <;>
        by_cases hh : p.ctype = "text/html" <;>
        simp [keptParts, htmlTexts, ha, hp, hc, hh, List.filter_cons] at ih ⊢ <;>
        exact ih

lemma imapLoop_length (o : ImapOracle) (mark_seen : Bool) :
    ∀ ids : List Nat, (imapLoop o mark_seen ids).fst.length ≤ ids.length := by
  intro ids
  induction ids with
  | nil => simp [imapLoop]
  | cons i rest ih =>
    by_cases h : o.fetchTyp i = "OK" <;>
      simp [imapLoop, h] <;> omega

lemma popLoop_length (o : PopOracle) :
    ∀ ids : List Nat, (popLoop o ids).fst.length ≤ ids.length := by
  intro ids
  induction ids with
  | nil => simp [popLoop]
  | cons i rest ih =>
    cases h : o.retrMsg i <;> simp [popLoop, h] <;> omega

lemma pyTake_length_le (l : List α) (k : Int) (hk : 0 ≤ k) :
    (pyTake l k).length ≤ k.toNat := by
  simp [pyTake, hk, List.length_take]

lemma pyTake_neg (l : List α) (k : Int) (hk : k < 0) :
    pyTake l k = l.take (l.length - k.natAbs) := by
  have h1 : ¬(0 ≤ k) := by omega
  have h2 : (-k).toNat = k.natAbs := by omega
  rw [pyTake, if_neg h1, h2]

/-! ## Claim theorems -/

/-- Claim C8: decode_header_value is idempotent on already-decoded ASCII
input (a plain string, i.e. a single string segment, is returned
unchanged, so decoding twice equals decoding once), absent input yields
the empty string, and a segment whose primary charset decode raises falls
back to the permissive UTF-8 decode rather than raising. -/
theorem th_C8 (s : String) (enc : Option String) (u : String) :
    decode_header_value (some [HdrSeg.text s]) = s
    ∧ decode_header_value none = ""
    ∧ decode_header_value (some [HdrSeg.text (decode_header_value (some [HdrSeg.text s]))])
        = decode_header_value (some [HdrSeg.text s])
    ∧ decode_header_value (some [HdrSeg.word enc none u]) = u := by
  have hjoin : ∀ t : String, String.join [t] = t := by
    intro t
    show String.append "" t = t
    cases t
    simp [String.append]
  exact ⟨hjoin s, rfl, by simp [decode_header_value, decodeSeg, hjoin],
    by simpa [decode_header_value, decodeSeg] using hjoin u⟩

/-- Claim C1: the claim states that a send with no resolvable
from-address fails with a ConfigurationError before opening any network
connection.  The code has no such check: with the explicit from
argument, default_from and smtp_user all absent, the from address
resolves to None, no error of any kind is raised before network I/O, the
very first action is opening the SMTP connection, and with a healthy
remote the call even succeeds. -/
theorem th_C1 :
    resolve_from cfgNoFrom none = none
    ∧ (send_email cfgNoFrom oracleAllOk ["a@example.com"] "s" "b" none none none
        none).snd.head? = some (SmtpEv.connectPlain "smtp.example.com" 587)
    ∧ (send_email cfgNoFrom oracleAllOk ["a@example.com"] "s" "b" none none none
        none).fst = .ok () := by
  refine ⟨rfl, ?_, rfl⟩
  rfl

/-- Claim C4: with the IMAP host (respectively the POP3 host) absent or
empty, the corresponding fetch fails with the configuration error and
its network trace is empty. -/
theorem th_C4 (cfg : EmailConfig) (o : ImapOracle) (folder : String)
    (limit : Int) (mark_seen : Bool) (cfg2 : EmailConfig) (o2 : PopOracle)
    (limit2 : Int) :
    (optTruthy cfg.imap_host = false →
      fetch_unseen_imap cfg o folder limit mark_seen
        = (.error (.configurationError "IMAP host not configured"), []))
    ∧ (optTruthy cfg2.pop3_host = false →
      fetch_pop3 cfg2 o2 limit2
        = (.error (.configurationError "POP3 host not configured"), [])) := by
  constructor <;> intro h
  · simp [fetch_unseen_imap, h]
  · simp [fetch_pop3, h]

/-- Witness for C4 at a concrete host-less configuration. -/
theorem th_C4_witness :
    optTruthy cfgNoHosts.imap_host = false
    ∧ optTruthy cfgNoHosts.pop3_host = false
    ∧ fetch_unseen_imap cfgNoHosts imapOracle0 "INBOX" 20 false
        = (.error (.configurationError "IMAP host not configured"), [])
    ∧ fetch_pop3 cfgNoHosts popOracle0 10
        = (.error (.configurationError "POP3 host not configured"), []) :=
  ⟨rfl, rfl,
   (th_C4 cfgNoHosts imapOracle0 "INBOX" 20 false cfgNoHosts popOracle0 10).1 rfl,
   (th_C4 cfgNoHosts imapOracle0 "INBOX" 20 false cfgNoHosts popOracle0 10).2 rfl⟩

/-- Claim C6: on a multipart message, the plain output is the
concatenation, with a joining line break and trimmed, of the decoded
texts of the non-attachment text/plain parts; the html output is the
text of the last encountered non-attachment text/html part; and removing
the attachment parts changes neither output (attachment content reaches
neither field). -/
theorem th_C6 (m : MimeMsg) (hm : m.multipart = true) :
    (get_message_text m).fst = pyStrip (pyJoin "\n" (plainTexts m.parts))
    ∧ (get_message_text m).snd = (htmlTexts m.parts).getLast?
    ∧ get_message_text m = get_message_text ⟨m.multipart, keptParts m.parts, m.payload⟩ := by
  have h := walkParts_eq m.parts [] none
  have hk := walkParts_eq (keptParts m.parts) [] none
  refine ⟨?_, ?_, ?_⟩
  · simp [get_message_text, hm, h]
  · simp [get_message_text, hm, h, lastWins_none]
  · simp [get_message_text, hm, h, hk, plainTexts_keptParts, htmlTexts_keptParts]

/-- Witness for C6 at a concrete two-part message: one text/plain part
and one attachment whose content appears in neither output. -/
theorem th_C6_witness :
    mMulti.multipart = true
    ∧ (get_message_text mMulti).fst = "hello"
    ∧ (get_message_text mMulti).snd = none := by
  have h := th_C6 mMulti rfl
  refine ⟨rfl, ?_, ?_⟩
  · rw [h.1]; rfl
  · rw [h.2.1]; rfl

/-- Counterexample to claim C2: with the IMAP search returning the ids
5, 3, 1 in that order and limit 2, the session does NOT process the ids
5 then 3 — reversing the returned ordering yields 1, 3, 5, so the first
two processed ids are 1 then 3. -/
theorem th_C2_counterexample :
    fetchedIds (fetch_unseen_imap cfgImap (imapOracle531 (fun _ => mailMsg0))
        "INBOX" 2 false).snd = [1, 3]
    ∧ ([1, 3] : List Nat) ≠ [5, 3] := by
  exact ⟨rfl, by decide⟩

/-- Claim C2 as amended: for an IMAP search that returns unseen ids
5, 3, 1 (in that order) and limit 2, the code reverses the returned id
ordering and processes the ids 1 then 3, returns at most 2 messages, and
attempts to clear the seen flag on both fetched messages when mark_seen
is false. -/
theorem th_C2 (fm : Nat → MailMsg) :
    (fetch_unseen_imap cfgImap (imapOracle531 fm) "INBOX" 2 false).fst
        = .ok [parseMail (fm 1), parseMail (fm 3)]
    ∧ fetchedIds (fetch_unseen_imap cfgImap (imapOracle531 fm) "INBOX" 2 false).snd
        = [1, 3]
    ∧ ([parseMail (fm 1), parseMail (fm 3)] : List InboundMessage).length ≤ 2
    ∧ storedIds (fetch_unseen_imap cfgImap (imapOracle531 fm) "INBOX" 2 false).snd
        = [1, 3] := by
  exact ⟨rfl, rfl, by simp, rfl⟩

/-- Claim C5: for the POP3 listing "1 100", "3 50", "2 75" and limit 2,
the message numbers are sorted descending and truncated, so messages 3
then 2 are retrieved; and a retrieval failure on 3 only skips that
message — message 2 is still retrieved and returned. -/
theorem th_C5 (rm : Nat → MailMsg) (m : MailMsg) :
    (fetch_pop3 cfgPop ⟨popListing, fun i => some (rm i), true⟩ 2).fst
        = .ok [parseMail (rm 3), parseMail (rm 2)]
    ∧ retrIds (fetch_pop3 cfgPop ⟨popListing, fun i => some (rm i), true⟩ 2).snd
        = [3, 2]
    ∧ (fetch_pop3 cfgPop ⟨popListing, fun i => if i = 2 then some m else none, true⟩
        2).fst = .ok [parseMail m]
    ∧ retrIds (fetch_pop3 cfgPop
        ⟨popListing, fun i => if i = 2 then some m else none, true⟩ 2).snd = [3, 2] := by
  exact ⟨rfl, rfl, rfl, rfl⟩

/-- Claim C9: in every send, the protocol-level submission (when one
happens) carries exactly the concatenation of the to, cc and bcc lists
as envelope recipients, while the constructed message carries only the
Subject, From, To and (when cc is non-empty) Cc headers — the message
headers are built without bcc and contain no Bcc field. -/
theorem th_C9 (cfg : EmailConfig) (o : SmtpOracle) (to_addresses : List String)
    (subject body : String) (html : Option String) (cc bcc : Option (List String))
    (from_address : Option String) :
    (sentPayloads (send_email cfg o to_addresses subject body html cc bcc
        from_address).snd = []
     ∨ sentPayloads (send_email cfg o to_addresses subject body html cc bcc
        from_address).snd
        = [(build_msg_headers subject (resolve_from cfg from_address) to_addresses cc,
            resolve_from cfg from_address, all_recipients to_addresses cc bcc)])
    ∧ all_recipients to_addresses cc bcc = to_addresses ++ cc.getD [] ++ bcc.getD []
    ∧ (build_msg_headers subject (resolve_from cfg from_address) to_addresses cc).map
        Prod.fst = ["Subject", "From", "To"] ++ (if listTruthy cc then ["Cc"] else []) := by
  refine ⟨?_, rfl, ?_⟩
  · obtain ⟨e1, st, e2, lg, sd, q⟩ := o
    cases htls : cfg.smtp_use_tls <;> cases hc : smtpCreds cfg <;>
      cases e1 <;> cases st <;> cases e2 <;> cases lg <;> cases sd <;> cases q <;>
      simp [send_email, smtpTlsRun, smtpSslRun, sentPayloads, smtpCleanup, htls, hc]
  · cases hcc : listTruthy cc <;> simp [build_msg_headers, hcc]

/-- Claim C7: with STARTTLS enabled, the session trace is always a
prefix of the canonical chain connect, greeting, STARTTLS, greeting,
login (only when both credentials are configured), submit — in that
order — followed on every exit path by the cleanup (graceful quit, and a
forced close when quit itself fails); and the call result is decided
solely by the protocol steps: it is success exactly when every attempted
protocol step succeeds, and flipping the cleanup outcome never changes
it. -/
theorem th_C7 (cfg : EmailConfig) (o : SmtpOracle) (to_addresses : List String)
    (subject body : String) (html : Option String) (cc bcc : Option (List String))
    (from_address : Option String) (htls : cfg.smtp_use_tls = true) :
    (∃ k, (send_email cfg o to_addresses subject body html cc bcc from_address).snd
        = (tlsChain cfg (build_msg_headers subject (resolve_from cfg from_address)
              to_addresses cc) (resolve_from cfg from_address)
              (all_recipients to_addresses cc bcc)).take k ++ smtpCleanup o.quitOk)
    ∧ (send_email cfg o to_addresses subject body html cc bcc from_address).fst
        = (send_email cfg { o with quitOk := !o.quitOk } to_addresses subject body
            html cc bcc from_address).fst
    ∧ ((send_email cfg o to_addresses subject body html cc bcc from_address).fst
          = .ok ()
        ↔ (o.ehlo1Ok = true ∧ o.starttlsOk = true ∧ o.ehlo2Ok = true
            ∧ (smtpCreds cfg = true → o.loginOk = true) ∧ o.sendOk = true)) := by
  obtain ⟨e1, st, e2, lg, sd, q⟩ := o
  refine ⟨⟨tlsStepCount cfg ⟨e1, st, e2, lg, sd, q⟩, ?_⟩, ?_, ?_⟩ <;>
    cases hc : smtpCreds cfg <;>
    cases e1 <;> cases st <;> cases e2 <;> cases lg <;> cases sd <;> cases q <;>
    simp [send_email, smtpTlsRun, smtpCleanup, tlsChain, tlsStepCount, htls, hc]

/-- Witness for C7 at a concrete STARTTLS configuration and a healthy
remote. -/
theorem th_C7_witness :
    cfgNoFrom.smtp_use_tls = true
    ∧ (send_email cfgNoFrom oracleAllOk ["a@example.com"] "s" "b" none none none
        (some "me@example.com")).fst
      = (send_email cfgNoFrom { oracleAllOk with quitOk := !oracleAllOk.quitOk }
          ["a@example.com"] "s" "b" none none none (some "me@example.com")).fst :=
  ⟨rfl, (th_C7 cfgNoFrom oracleAllOk ["a@example.com"] "s" "b" none none none
    (some "me@example.com") rfl).2.1⟩

/-- Claim C10: for a non-negative limit n both fetch operations return
at most n messages; the bound indeed rests on non-negativity, because
the slicing is the Python slice ids[:limit]: for a negative limit the
slice instead drops the last natAbs limit candidates and keeps all the
rest — concretely, limit -1 over reversed search ids 1, 3, 5 processes
1 then 3 and only drops 5. -/
theorem th_C10 :
    (∀ (cfg : EmailConfig) (o : ImapOracle) (folder : String) (limit : Int)
        (mark_seen : Bool) (ms : List InboundMessage), 0 ≤ limit →
      (fetch_unseen_imap cfg o folder limit mark_seen).fst = .ok ms →
      ms.length ≤ limit.toNat)
    ∧ (∀ (cfg : EmailConfig) (o : PopOracle) (limit : Int)
        (ms : List InboundMessage), 0 ≤ limit →
      (fetch_pop3 cfg o limit).fst = .ok ms → ms.length ≤ limit.toNat)
    ∧ (∀ (l : List Nat) (k : Int), k < 0 → pyTake l k = l.take (l.length - k.natAbs))
    ∧ (∀ fm : Nat → MailMsg,
        fetchedIds (fetch_unseen_imap cfgImap (imapOracle531 fm) "INBOX" (-1)
          false).snd = [1, 3]) := by
  refine ⟨?_, ?_, fun l k hk => pyTake_neg l k hk, fun fm => rfl⟩
  · intro cfg o folder limit mark_seen ms hk h
    by_cases h1 : optTruthy cfg.imap_host
    · by_cases h2 : smtpCreds cfg && !o.loginOk
      · simp [fetch_unseen_imap, h1, h2] at h
      · by_cases h3 : o.searchStatus = "OK"
        · simp [fetch_unseen_imap, h1, h2, h3] at h
          subst h
          exact le_trans (imapLoop_length o mark_seen _)
            (pyTake_length_le _ limit hk)
        · simp [fetch_unseen_imap, h1, h2, h3] at h
          subst h
          simp
    · simp [fetch_unseen_imap, h1] at h
  · intro cfg o limit ms hk h
    by_cases h1 : optTruthy cfg.pop3_host
    · cases hp : parseListingIds o.listItems with
      | none => simp [fetch_pop3, h1, hp] at h
      | some ids0 =>
        simp [fetch_pop3, h1, hp] at h
        subst h
        exact le_trans (popLoop_length o _) (pyTake_length_le _ limit hk)
    · simp [fetch_pop3, h1] at h

/-- Witness for C10 at limit 2 over the three-id search scenario. -/
theorem th_C10_witness :
    (0 : Int) ≤ 2
    ∧ (fetch_unseen_imap cfgImap (imapOracle531 (fun _ => mailMsg0)) "INBOX" 2
        false).fst = .ok [parseMail mailMsg0, parseMail mailMsg0]
    ∧ ([parseMail mailMsg0, parseMail mailMsg0] : List InboundMessage).length
        ≤ (2 : Int).toNat :=
  ⟨by decide, rfl,
    th_C10.1 cfgImap (imapOracle531 (fun _ => mailMsg0)) "INBOX" 2 false
      [parseMail mailMsg0, parseMail mailMsg0] (by decide) rfl⟩

/-- Claim C3: the claim states the endpoint sets the submitter address
as the reply-to of the sent message and returns success when the send
succeeds.  In the code, the call site passes the keyword argument
reply_to, which send_email does not accept, so the invocation raises
TypeError inside the try block: with a resolvable recipient the endpoint
always answers with the 502-class error — it can never return success,
whatever the SMTP remote would do.  (The 500-class error for an
unresolvable recipient is as claimed.) -/
theorem th_C3 (env : Option String) (cfg : EmailConfig) (o : SmtpOracle)
    (name email : String) (phone : Option String) (subject message : String) :
    (optTruthy (pyOr (pyOr env cfg.default_from) cfg.smtp_user) = true →
      submit_contact env cfg o name email phone subject message
        = .httpError 502
          "Failed to send contact email: TypeError: unexpected keyword argument reply_to")
    ∧ submit_contact env cfg o name email phone subject message ≠ .ok
    ∧ (optTruthy (pyOr (pyOr env cfg.default_from) cfg.smtp_user) = false →
      submit_contact env cfg o name email phone subject message
        = .httpError 500 "Contact recipient not configured") := by
  have hkw : contact_call_keywords.any (fun k => !send_email_keywords.contains k)
      = true := by decide
  refine ⟨?_, ?_, ?_⟩
  · intro h
    simp only [submit_contact]
    rw [h, hkw]
    rfl
  · cases hx : optTruthy (pyOr (pyOr env cfg.default_from) cfg.smtp_user)
    · simp only [submit_contact]
      rw [hx]
      simp
    · simp only [submit_contact]
      rw [hx, hkw]
      simp
  · intro h
    simp only [submit_contact]
    rw [h]
    rfl

/-- Witness for C3 at a concrete configured recipient and an SMTP remote
that would accept the message: the endpoint still answers 502. -/
theorem th_C3_witness :
    optTruthy (pyOr (pyOr (some "team@example.org") cfgNoFrom.default_from)
      cfgNoFrom.smtp_user) = true
    ∧ submit_contact (some "team@example.org") cfgNoFrom oracleAllOk "Ada"
        "ada@example.org" none "Hi" "Hello there"
      = .httpError 502
        "Failed to send contact email: TypeError: unexpected keyword argument reply_to" :=
  ⟨rfl, (th_C3 (some "team@example.org") cfgNoFrom oracleAllOk "Ada"
    "ada@example.org" none "Hi" "Hello there").1 rfl⟩

